import Mathlib

/-!
Shallow embedding of the crawl orchestration core of `src/crawler.py`
(news-emotion-dashboard): the `NewsItem` record, the per-site crawl loop of
`BaseCrawler.crawl`, the three site adapters (`NaverCrawler`, `DaumCrawler`,
`HankyungCrawler`) with their `build_url` / `parse_page` logic, and the
`MultiSiteCrawler` manager with its registry validation and `_deduplicate`
pass.  Browser/DOM effects are embedded as explicit data: a page's DOM is a
list of "cards" whose fields record what each CSS-selector lookup would
return (`none` models `NoSuchElementException`), and the per-page fate of a
crawl run (ready / timeout / parse error / fatal fetch error) is an explicit
`PageOutcome` oracle.  Python's `str.strip()` is modelled by `pyStrip`.
-/

/-- NewsItem dataclass (crawler.py lines 36-55): one discovered news item.
`crawled_at` is the wall-clock construction timestamp; the pure model threads
it in as the `now` parameter of each `parse_page`. -/
structure NewsItem where
  title : String
  press : String
  pub_time : String
  url : String
  source : String
  crawled_at : String
deriving DecidableEq, Repr

/-- Python string truthiness fallback `a or b`: the empty string is falsy. -/
def pyOr (a b : String) : String := if a = "" then b else a

/-- Characters stripped by Python's `str.strip()` (modulo exotic Unicode
whitespace): space, tab, carriage return, line feed. -/
def pyStripList (l : List Char) : List Char :=
  ((l.dropWhile Char.isWhitespace).reverse.dropWhile Char.isWhitespace).reverse

/-- Model of Python's `str.strip()` as a kernel-computable function. -/
def pyStrip (s : String) : String := String.mk (pyStripList s.data)

/-- BaseCrawler.safe_text (crawler.py lines 165-171):
`element.find_element(selector).text.strip()`, returning the default when the
element is missing (`NoSuchElementException`).  The argument models the raw
`.text` of the selected element, `none` when no element matches. -/
def BaseCrawler.safe_text (found : Option String) (d : String) : String :=
  match found with
  | some t => pyStrip t
  | none => d

/-- BaseCrawler.safe_attr (crawler.py lines 173-179):
`element.find_element(selector).get_attribute(attr) or default`, returning the
default when the element is missing.  A present element whose attribute is
absent or empty (falsy) also yields the default, via Python's `or`. -/
def BaseCrawler.safe_attr (found : Option String) (d : String) : String :=
  match found with
  | some a => if a = "" then d else a
  | none => d

/-- Decides whether the character list `p` is a leading segment of `l`;
helper for the substring test used by Python's `in` operator. -/
def charsPre : List Char → List Char → Bool
  | [], _ => true
  | _ :: _, [] => false
  | a :: ps, b :: ls => a = b && charsPre ps ls

/-- Decides whether the character list `p` occurs contiguously inside `l`. -/
def charsSub (p : List Char) : List Char → Bool
  | [] => charsPre p []
  | b :: ls => charsPre p (b :: ls) || charsSub p ls

/-- Python's substring operator `pat in s`. -/
def strIn (pat s : String) : Bool := charsSub pat.data s.data

/-- UTF-8 encoding of one character as a list of byte values, used by the
`quote_plus` model (Python percent-encodes the UTF-8 bytes). -/
def utf8Bytes (c : Char) : List Nat :=
  let n := c.toNat
  if n < 128 then [n]
  else if n < 2048 then [192 + n / 64, 128 + n % 64]
  else if n < 65536 then [224 + n / 4096, 128 + n / 64 % 64, 128 + n % 64]
  else [240 + n / 262144, 128 + n / 4096 % 64, 128 + n / 64 % 64, 128 + n % 64]

/-- Uppercase hexadecimal digit for a value below 16. -/
def hexDig (n : Nat) : Char := if n < 10 then Char.ofNat (48 + n) else Char.ofNat (55 + n)

/-- Encoding of one character under `urllib.parse.quote_plus`: a space becomes
`+`, ASCII alphanumerics and `_ . - ~` pass through, everything else is
percent-encoded byte by byte (uppercase hex) from its UTF-8 encoding. -/
def quoteChar (c : Char) : List Char :=
  if c = ' ' then ['+']
  else if (48 ≤ c.toNat ∧ c.toNat ≤ 57) ∨ (65 ≤ c.toNat ∧ c.toNat ≤ 90) ∨
          (97 ≤ c.toNat ∧ c.toNat ≤ 122) ∨ c = '_' ∨ c = '.' ∨ c = '-' ∨ c = '~' then [c]
  else (utf8Bytes c).foldr (fun b acc => '%' :: hexDig (b / 16) :: hexDig (b % 16) :: acc) []

/-- Model of `urllib.parse.quote_plus` as used by every `build_url`. -/
def quote_plus (s : String) : String :=
  String.mk (s.data.foldr (fun c acc => quoteChar c ++ acc) [])

/-- NaverCrawler's page-to-offset arithmetic (crawler.py line 206):
`start = (page - 1) * 10 + 1`. -/
def NaverCrawler.start_offset (page : Nat) : Nat := (page - 1) * 10 + 1

/-- NaverCrawler.build_url (crawler.py lines 205-207): `_BASE.format` with the
keyword URL-quoted and the cumulative start offset. -/
def NaverCrawler.build_url (keyword : String) (page : Nat) : String :=
  "https://search.naver.com/search.naver?where=news&query=" ++ quote_plus keyword ++
    "&start=" ++ toString (NaverCrawler.start_offset page) ++ "&sort=1"

/-- DaumCrawler.build_url (crawler.py lines 259-260): the raw page number is
embedded directly as the `p` query parameter. -/
def DaumCrawler.build_url (keyword : String) (page : Nat) : String :=
  "https://search.daum.net/search?w=news&q=" ++ quote_plus keyword ++
    "&p=" ++ toString page ++ "&spacing=0&sort=recency"

/-- HankyungCrawler.build_url (crawler.py lines 321-322): the raw page number
is embedded directly as the `page` query parameter. -/
def HankyungCrawler.build_url (keyword : String) (page : Nat) : String :=
  "https://www.hankyung.com/search?search_str=" ++ quote_plus keyword ++
    "&page=" ++ toString page ++ "&type=news&sort=date"

/-- One result card of the Naver list `ul.list_news > li.bx`; each field is the
raw text / attribute the corresponding selector lookup would return (`none`
models a missing element). -/
structure NaverCard where
  news_tit : Option String
  info_press : Option String
  a_press : Option String
  spans_info : List String
  news_tit_href : Option String
deriving DecidableEq, Repr

/-- NaverCrawler._extract_time inner loop (crawler.py lines 229-232): the first
`span.info` whose stripped text contains one of the four marker substrings. -/
def NaverCrawler.find_marked : List String → Option String
  | [] => none
  | s :: rest =>
    if strIn "전" (pyStrip s) || strIn "." (pyStrip s) || strIn "시간" (pyStrip s) || strIn "일" (pyStrip s) then
      some (pyStrip s)
    else NaverCrawler.find_marked rest

/-- NaverCrawler._extract_time (crawler.py lines 226-233): first marked
`span.info` text, else the last span's stripped text, else the empty string. -/
def NaverCrawler.extract_time (spans : List String) : String :=
  match NaverCrawler.find_marked spans with
  | some t => t
  | none =>
    match spans.getLast? with
    | some s => pyStrip s
    | none => ""

/-- NaverCrawler.parse_page (crawler.py lines 212-224): skip cards with an
empty extracted title, otherwise build a NewsItem with the press fallback
chain `a.info.press` / `a.press` / the sentinel. -/
def NaverCrawler.parse_page (now : String) : List NaverCard → List NewsItem
  | [] => []
  | card :: cards =>
    let title := BaseCrawler.safe_text card.news_tit ""
    if title = "" then NaverCrawler.parse_page now cards
    else
      let press := pyOr (BaseCrawler.safe_text card.info_press "") (BaseCrawler.safe_text card.a_press "")
      let pub_time := NaverCrawler.extract_time card.spans_info
      let url := BaseCrawler.safe_attr card.news_tit_href ""
      { title := title, press := pyOr press "알 수 없음", pub_time := pub_time,
        url := url, source := "naver", crawled_at := now } :: NaverCrawler.parse_page now cards

/-- One result card of the Daum list (whichever of the three card selectors
matched first); fields are raw selector lookups, `none` for a missing
element. -/
structure DaumCard where
  tit_main : Option String
  link_txt : Option String
  item_title : Option String
  tit_g : Option String
  tit_main_href : Option String
  link_txt_href : Option String
  item_title_href : Option String
  name_cp : Option String
  txt_cp : Option String
  info_txt : Option String
  num_date : Option String
  date_txt : Option String
  info_date : Option String
deriving DecidableEq, Repr

/-- DaumCrawler.parse_page (crawler.py lines 265-292): title fallback chain
`a.tit_main` / `a.link_txt` / `a.item-title` / `a.tit_g`; cards with an empty
title are skipped; url, press and time each use their own fallback chains. -/
def DaumCrawler.parse_page (now : String) : List DaumCard → List NewsItem
  | [] => []
  | card :: cards =>
    let title := pyOr (BaseCrawler.safe_text card.tit_main "")
      (pyOr (BaseCrawler.safe_text card.link_txt "")
        (pyOr (BaseCrawler.safe_text card.item_title "") (BaseCrawler.safe_text card.tit_g "")))
    if title = "" then DaumCrawler.parse_page now cards
    else
      let url := pyOr (BaseCrawler.safe_attr card.tit_main_href "")
        (pyOr (BaseCrawler.safe_attr card.link_txt_href "") (BaseCrawler.safe_attr card.item_title_href ""))
      let press := pyOr (BaseCrawler.safe_text card.name_cp "")
        (pyOr (BaseCrawler.safe_text card.txt_cp "") (BaseCrawler.safe_text card.info_txt ""))
      let pub_time := pyOr (BaseCrawler.safe_text card.num_date "")
        (pyOr (BaseCrawler.safe_text card.date_txt "") (BaseCrawler.safe_text card.info_date ""))
      { title := title, press := pyOr press "알 수 없음", pub_time := pub_time,
        url := url, source := "daum", crawled_at := now } :: DaumCrawler.parse_page now cards

/-- One result card of the Hankyung list (whichever card selector matched
first); fields are raw selector lookups, `none` for a missing element. -/
structure HankyungCard where
  news_tit : Option String
  h3_title_a : Option String
  a_tit : Option String
  dot_tit : Option String
  news_tit_href : Option String
  h3_title_a_href : Option String
  a_tit_href : Option String
  author : Option String
  reporter : Option String
  date : Option String
  time_text : Option String
  time_datetime : Option String
deriving DecidableEq, Repr

/-- HankyungCrawler.parse_page (crawler.py lines 327-356): title fallback
chain; cards with an empty title are skipped; a relative url gets the site
host prepended; the press fallback ends in the literal `한국경제`. -/
def HankyungCrawler.parse_page (now : String) : List HankyungCard → List NewsItem
  | [] => []
  | card :: cards =>
    let title := pyOr (BaseCrawler.safe_text card.news_tit "")
      (pyOr (BaseCrawler.safe_text card.h3_title_a "")
        (pyOr (BaseCrawler.safe_text card.a_tit "") (BaseCrawler.safe_text card.dot_tit "")))
    if title = "" then HankyungCrawler.parse_page now cards
    else
      let url0 := pyOr (BaseCrawler.safe_attr card.news_tit_href "")
        (pyOr (BaseCrawler.safe_attr card.h3_title_a_href "") (BaseCrawler.safe_attr card.a_tit_href ""))
      let url := if url0 ≠ "" ∧ url0.startsWith "/" then "https://www.hankyung.com" ++ url0 else url0
      let press := pyOr (BaseCrawler.safe_text card.author "")
        (pyOr (BaseCrawler.safe_text card.reporter "") "한국경제")
      let pub_time := pyOr (BaseCrawler.safe_text card.date "")
        (pyOr (BaseCrawler.safe_text card.time_text "") (BaseCrawler.safe_attr card.time_datetime ""))
      { title := title, press := press, pub_time := pub_time,
        url := url, source := "hankyung", crawled_at := now } :: HankyungCrawler.parse_page now cards

/-- Fate of one page iteration of `BaseCrawler.crawl`, the environment oracle
of the embedded loop:
`ok items` — the readiness wait succeeded and `parse_page` returned `items`;
`timeout` — `wait.until` raised `TimeoutException` (crawler.py line 141);
`parseError` — `parse_page` raised, caught at line 147;
`fatal` — a fetch-level operation (navigation / session) raised outside both
inner handlers, caught only by the outer handler at line 155. -/
inductive PageOutcome where
  | fatal
  | timeout
  | parseError
  | ok (items : List NewsItem)
deriving DecidableEq, Repr

/-- Observable resource / pacing events of one `BaseCrawler.crawl` run:
`acquire` — `build_driver` assigned to `self._driver` (line 128);
`nav` — `self._driver.get(url)` (line 135);
`pace` — `time.sleep(random.uniform(*self.delay_range))` (line 153), the
pacing suspension whose duration is drawn uniformly from `delay_range`;
`quitDriver` — `self._driver.quit()` followed by clearing the handle in the
`finally` block (lines 158-160). -/
inductive CrawlEv where
  | acquire
  | nav
  | pace
  | quitDriver
deriving DecidableEq, Repr

/-- The page loop of `BaseCrawler.crawl` (crawler.py lines 132-153), one
`PageOutcome` per attempted page, returning the accumulated `results` list and
the trace of navigation / pacing events.  On `timeout` the `continue` at line
143 jumps to the next iteration, so no `pace` event is emitted; on
`parseError` the handler sets `items = []` and execution falls through to
`results.extend` and the pacing sleep; on `fatal` the exception escapes to the
outer handler, ending the loop with no further pages. -/
def crawlLoop : List PageOutcome → List NewsItem × List CrawlEv
  | [] => ([], [])
  | PageOutcome.fatal :: _ => ([], [CrawlEv.nav])
  | PageOutcome.timeout :: rest =>
    let r := crawlLoop rest
    (r.1, CrawlEv.nav :: r.2)
  | PageOutcome.parseError :: rest =>
    let r := crawlLoop rest
    (r.1, CrawlEv.nav :: CrawlEv.pace :: r.2)
  | PageOutcome.ok items :: rest =>
    let r := crawlLoop rest
    (items ++ r.1, CrawlEv.nav :: CrawlEv.pace :: r.2)

/-- BaseCrawler.crawl (crawler.py lines 125-162): acquire the driver, run the
page loop under the outer try, and release the driver in the `finally` block
on every exit path, returning the results accumulated so far. -/
def BaseCrawler.crawl (outs : List PageOutcome) : List NewsItem × List CrawlEv :=
  let r := crawlLoop outs
  (r.1, CrawlEv.acquire :: r.2 ++ [CrawlEv.quitDriver])

/-- Records collected from the pages of a run as the spec reads it: the
concatenation, in page order, of the batches of the pages whose extraction
succeeded. -/
def collected : List PageOutcome → List NewsItem
  | [] => []
  | PageOutcome.ok items :: rest => items ++ collected rest
  | _ :: rest => collected rest

/-- Dedup key of a record, inlined at crawler.py line 425:
`item.url.strip() if item.url.strip() else item.title.strip()`. -/
def MultiSiteCrawler.dedupKey (item : NewsItem) : String :=
  if pyStrip item.url ≠ "" then pyStrip item.url else pyStrip item.title

/-- Loop of `MultiSiteCrawler._deduplicate` (crawler.py lines 424-428), with
the Python `seen` set embedded as the list of keys added so far. -/
def dedupGo (seen : List String) : List NewsItem → List NewsItem
  | [] => []
  | item :: rest =>
    if MultiSiteCrawler.dedupKey item ∈ seen then dedupGo seen rest
    else item :: dedupGo (MultiSiteCrawler.dedupKey item :: seen) rest

/-- MultiSiteCrawler._deduplicate (crawler.py lines 420-429). -/
def MultiSiteCrawler._deduplicate (items : List NewsItem) : List NewsItem :=
  dedupGo [] items

/-- Modelled from the spec's words for claim C1 (§4.5 step 4): iterate the
list once, in order, keeping the first occurrence of each dedup key and
dropping every later occurrence with the same key. -/
def specFirstSeen : List NewsItem → List NewsItem
  | [] => []
  | x :: xs =>
    x :: specFirstSeen (xs.filter fun y =>
      decide (MultiSiteCrawler.dedupKey y ≠ MultiSiteCrawler.dedupKey x))
termination_by l => l.length
decreasing_by
  simp only [List.length_cons]
  exact Nat.lt_succ_of_le (List.length_filter_le _ _)

/-- Registered site keys of `MultiSiteCrawler._REGISTRY` (crawler.py lines
379-383), in registration order. -/
def MultiSiteCrawler.registry_keys : List String := ["naver", "daum", "hankyung"]

/-- Target keys of `MultiSiteCrawler.__init__` (crawler.py line 386):
`sites or list(self._REGISTRY.keys())` — `None` or an empty list selects
every registered site. -/
def MultiSiteCrawler.target_keys (sites : Option (List String)) : List String :=
  match sites with
  | none => MultiSiteCrawler.registry_keys
  | some s => if s = [] then MultiSiteCrawler.registry_keys else s

/-- Invalid keys of `MultiSiteCrawler.__init__` (crawler.py line 387):
`set(target_keys) - set(self._REGISTRY)`, embedded as the deduplicated list of
target keys missing from the registry. -/
def MultiSiteCrawler.invalid_keys (sites : Option (List String)) : List String :=
  ((MultiSiteCrawler.target_keys sites).filter
    (fun k => decide (k ∉ MultiSiteCrawler.registry_keys))).dedup

/-- MultiSiteCrawler.__init__ (crawler.py lines 385-393): raise `ValueError`
carrying the invalid keys when any requested key is unknown, otherwise
construct the per-site crawlers for the target keys. -/
def MultiSiteCrawler.init (sites : Option (List String)) : Except (List String) (List String) :=
  if MultiSiteCrawler.invalid_keys sites = [] then
    Except.ok (MultiSiteCrawler.target_keys sites)
  else Except.error (MultiSiteCrawler.invalid_keys sites)

/-- MultiSiteCrawler.crawl (crawler.py lines 395-410): run every site's crawl
sequentially (one `List PageOutcome` oracle per requested site), concatenate
the per-site results in order, then deduplicate. -/
def MultiSiteCrawler.crawl (siteOuts : List (List PageOutcome)) : List NewsItem :=
  MultiSiteCrawler._deduplicate
    ((siteOuts.map (fun outs => (BaseCrawler.crawl outs).1)).flatten)

/-- Construction followed by crawling: `MultiSiteCrawler(sites=...)` then
`.crawl(...)`.  A configuration error surfaces before any page loop runs. -/
def MultiSiteCrawler.run (sites : Option (List String)) (siteOuts : List (List PageOutcome)) :
    Except (List String) (List NewsItem) :=
  match MultiSiteCrawler.init sites with
  | Except.error e => Except.error e
  | Except.ok _ => Except.ok (MultiSiteCrawler.crawl siteOuts)

/-- Replacing the seen-set by one with the same members does not change the
result of the dedup loop (the Python `seen` is a set; only membership
matters). -/
theorem dedupGo_seen_congr (l : List NewsItem) :
    ∀ s₁ s₂ : List String, (∀ k, k ∈ s₁ ↔ k ∈ s₂) → dedupGo s₁ l = dedupGo s₂ l := by
  induction l with
  | nil => intro s₁ s₂ _; rfl
  | cons item rest ih =>
    intro s₁ s₂ h
    simp only [dedupGo]
    by_cases hk : MultiSiteCrawler.dedupKey item ∈ s₁
    · rw [if_pos hk, if_pos ((h _).mp hk)]
      exact ih s₁ s₂ h
    · rw [if_neg hk, if_neg (fun hy => hk ((h _).mpr hy))]
      refine congrArg (item :: ·) (ih _ _ ?_)
      intro k
      simp only [List.mem_cons]
      exact or_congr Iff.rfl (h k)

/-- Pre-seeding the dedup loop with a key behaves like first deleting every
record carrying that key. -/
theorem dedupGo_cons_filter (l : List NewsItem) :
    ∀ (k : String) (seen : List String),
      dedupGo (k :: seen) l =
        dedupGo seen (l.filter fun y => decide (MultiSiteCrawler.dedupKey y ≠ k)) := by
  induction l with
  | nil => intro k seen; rfl
  | cons item rest ih =>
    intro k seen
    by_cases hik : MultiSiteCrawler.dedupKey item = k
    · have hmem : MultiSiteCrawler.dedupKey item ∈ k :: seen := by
        simp [hik]
      rw [List.filter_cons_of_neg (by simp [hik])]
      simp only [dedupGo, if_pos hmem]
      exact ih k seen
    · rw [List.filter_cons_of_pos (by simp [hik])]
      by_cases hseen : MultiSiteCrawler.dedupKey item ∈ seen
      · have hmem : MultiSiteCrawler.dedupKey item ∈ k :: seen :=
          List.mem_cons_of_mem _ hseen
        simp only [dedupGo, if_pos hmem, if_pos hseen]
        exact ih k seen
      · have hmem : MultiSiteCrawler.dedupKey item ∉ k :: seen := by
          simp [hik, hseen]
        simp only [dedupGo, if_neg hmem, if_neg hseen]
        refine congrArg (item :: ·) ?_
        have hswap : dedupGo (MultiSiteCrawler.dedupKey item :: k :: seen) rest
            = dedupGo (k :: MultiSiteCrawler.dedupKey item :: seen) rest := by
          refine dedupGo_seen_congr rest _ _ ?_
          intro x
          simp only [List.mem_cons]
          tauto
        rw [hswap]
        exact ih k (MultiSiteCrawler.dedupKey item :: seen)

/-- The dedup loop agrees with the spec's first-seen-wins reading. -/
theorem dedup_eq_specFirstSeen : ∀ l : List NewsItem,
    MultiSiteCrawler._deduplicate l = specFirstSeen l := by
  intro l
  induction l using specFirstSeen.induct with
  | case1 => simp [MultiSiteCrawler._deduplicate, dedupGo, specFirstSeen]
  | case2 x xs ih =>
    show dedupGo [] (x :: xs) = specFirstSeen (x :: xs)
    have hnot : MultiSiteCrawler.dedupKey x ∉ ([] : List String) := by
      simp
    simp only [dedupGo, if_neg hnot]
    rw [dedupGo_cons_filter xs (MultiSiteCrawler.dedupKey x) []]
    rw [show dedupGo []
        (xs.filter fun y => decide (MultiSiteCrawler.dedupKey y ≠ MultiSiteCrawler.dedupKey x))
      = MultiSiteCrawler._deduplicate
        (xs.filter fun y => decide (MultiSiteCrawler.dedupKey y ≠ MultiSiteCrawler.dedupKey x))
      from rfl]
    rw [ih]
    conv_rhs => rw [specFirstSeen]

/-- The dedup loop only drops records: its output is a sublist of its input,
so retained records keep their relative order and are unchanged. -/
theorem dedupGo_sublist (l : List NewsItem) : ∀ seen, List.Sublist (dedupGo seen l) l := by
  induction l with
  | nil => intro seen; exact List.Sublist.refl []
  | cons item rest ih =>
    intro seen
    simp only [dedupGo]
    split
    · exact List.Sublist.cons item (ih seen)
    · exact List.Sublist.cons₂ item (ih _)

/-- A record whose dedup key was already seen — in the seed or on an earlier
record — is dropped without affecting the rest of the pass. -/
theorem dedupGo_drop (l₁ : List NewsItem) :
    ∀ (seen : List String) (b : NewsItem) (l₂ : List NewsItem),
      MultiSiteCrawler.dedupKey b ∈ seen ++ l₁.map MultiSiteCrawler.dedupKey →
      dedupGo seen (l₁ ++ b :: l₂) = dedupGo seen (l₁ ++ l₂) := by
  induction l₁ with
  | nil =>
    intro seen b l₂ h
    simp only [List.map_nil, List.append_nil] at h
    simp only [List.nil_append, dedupGo, if_pos h]
  | cons x l₁ ih =>
    intro seen b l₂ h
    simp only [List.map_cons] at h
    simp only [List.cons_append, dedupGo]
    by_cases hx : MultiSiteCrawler.dedupKey x ∈ seen
    · rw [if_pos hx, if_pos hx]
      apply ih
      rcases List.mem_append.mp h with h1 | h2
      · exact List.mem_append.mpr (Or.inl h1)
      · rcases List.mem_cons.mp h2 with h3 | h4
        · exact List.mem_append.mpr (Or.inl (by rwa [h3]))
        · exact List.mem_append.mpr (Or.inr h4)
    · rw [if_neg hx, if_neg hx]
      refine congrArg (x :: ·) (ih _ b l₂ ?_)
      rcases List.mem_append.mp h with h1 | h2
      · exact List.mem_append.mpr (Or.inl (List.mem_cons_of_mem _ h1))
      · rcases List.mem_cons.mp h2 with h3 | h4
        · exact List.mem_append.mpr (Or.inl (by rw [h3]; exact List.mem_cons_self _ _))
        · exact List.mem_append.mpr (Or.inr h4)

/-- C1: deduplication is order-preserving and first-seen-wins over the
concatenated list — `_deduplicate` keeps exactly the first record of each
dedup key (url stripped if non-empty, else title stripped), drops every later
record with the same key (this is the spec-side `specFirstSeen`), and its
output is a sublist of its input, so retained records appear in their
original relative order and are not mutated. -/
theorem claim_C1_dedup_first_seen (l : List NewsItem) :
    MultiSiteCrawler._deduplicate l = specFirstSeen l
    ∧ List.Sublist (MultiSiteCrawler._deduplicate l) l :=
  ⟨dedup_eq_specFirstSeen l, dedupGo_sublist l []⟩

/-- C10: url-derived and title-derived dedup keys share one key space — a
later record whose stripped url is empty is dropped whenever its stripped
title equals the dedup key of any earlier record, regardless of which field
that earlier key came from. -/
theorem claim_C10_key_space_collision (pre : List NewsItem) (b : NewsItem) (post : List NewsItem)
    (hurl : pyStrip b.url = "")
    (hcol : ∃ a ∈ pre, MultiSiteCrawler.dedupKey a = pyStrip b.title) :
    MultiSiteCrawler._deduplicate (pre ++ b :: post) = MultiSiteCrawler._deduplicate (pre ++ post) := by
  obtain ⟨a, ha, hk⟩ := hcol
  have hkey : MultiSiteCrawler.dedupKey b = pyStrip b.title := by
    simp [MultiSiteCrawler.dedupKey, hurl]
  show dedupGo [] (pre ++ b :: post) = dedupGo [] (pre ++ post)
  apply dedupGo_drop
  rw [List.nil_append, hkey, ← hk]
  exact List.mem_map_of_mem _ ha

/-- Record with a url, as produced by some earlier site. -/
def recWithUrl : NewsItem :=
  { title := "first", press := "p", pub_time := "", url := "X", source := "naver",
    crawled_at := "c" }

/-- Record with an empty url whose title collides with the earlier url. -/
def recUrlless : NewsItem :=
  { title := "X", press := "q", pub_time := "", url := "", source := "daum",
    crawled_at := "c" }

/-- Witness for C10: the title-keyed record `recUrlless` is dropped because an
earlier record's url-derived key equals its stripped title. -/
theorem claim_C10_witness :
    MultiSiteCrawler._deduplicate [recWithUrl, recUrlless]
      = MultiSiteCrawler._deduplicate [recWithUrl] :=
  claim_C10_key_space_collision [recWithUrl] recUrlless [] (by decide)
    ⟨recWithUrl, by decide, by decide⟩

/-- A fatal fetch error truncates the run: the records returned are exactly
those accumulated before the fatal page; later pages contribute nothing. -/
theorem crawlLoop_fatal_items (pre post : List PageOutcome) :
    (crawlLoop (pre ++ PageOutcome.fatal :: post)).1 = (crawlLoop pre).1 := by
  induction pre with
  | nil => rfl
  | cons o rest ih =>
    cases o <;> simp [crawlLoop, ih]

/-- On a run without a fatal error, the returned records are the concatenation
of the successfully extracted page batches, in page order. -/
theorem crawlLoop_noFatal_items (pre : List PageOutcome) (h : PageOutcome.fatal ∉ pre) :
    (crawlLoop pre).1 = collected pre := by
  induction pre with
  | nil => rfl
  | cons o rest ih =>
    have h2 : PageOutcome.fatal ∉ rest := fun hm => h (List.mem_cons_of_mem _ hm)
    cases o with
    | fatal => exact absurd (List.mem_cons_self _ _) h
    | timeout => simp [crawlLoop, collected, ih h2]
    | parseError => simp [crawlLoop, collected, ih h2]
    | ok items => simp [crawlLoop, collected, ih h2]

/-- C2: a fatal fetch-level failure (navigation or session failure raising
outside the per-page timeout/extraction handlers) stops that site's run at
that page; records collected from earlier pages are kept and returned, and in
the multi-site crawl every other site's run is unaffected. -/
theorem claim_C2_fatal_abort_keeps_records (pre post : List PageOutcome)
    (a b : List (List PageOutcome)) :
    (BaseCrawler.crawl (pre ++ PageOutcome.fatal :: post)).1 = (BaseCrawler.crawl pre).1
    ∧ (PageOutcome.fatal ∉ pre → (BaseCrawler.crawl pre).1 = collected pre)
    ∧ MultiSiteCrawler.crawl (a ++ (pre ++ PageOutcome.fatal :: post) :: b)
        = MultiSiteCrawler.crawl (a ++ pre :: b) := by
  have hitems : (BaseCrawler.crawl (pre ++ PageOutcome.fatal :: post)).1
      = (BaseCrawler.crawl pre).1 := by
    simpa [BaseCrawler.crawl] using crawlLoop_fatal_items pre post
  refine ⟨hitems, ?_, ?_⟩
  · intro h
    simpa [BaseCrawler.crawl] using crawlLoop_noFatal_items pre h
  · unfold MultiSiteCrawler.crawl
    congr 1
    simp only [List.map_append, List.map_cons]
    rw [hitems]

/-- Sample record used as a concrete page batch by the crawl witnesses. -/
def sampleItem : NewsItem :=
  { title := "sample", press := "p", pub_time := "", url := "u", source := "naver",
    crawled_at := "c" }

/-- Witness for C2: a concrete one-page fatal-free run returns exactly its
collected batch, and appending a fatal page with later pages changes
nothing about what is returned. -/
theorem claim_C2_witness :
    (BaseCrawler.crawl [PageOutcome.ok [sampleItem], PageOutcome.fatal,
        PageOutcome.ok [sampleItem]]).1
      = (BaseCrawler.crawl [PageOutcome.ok [sampleItem]]).1
    ∧ (BaseCrawler.crawl [PageOutcome.ok [sampleItem]]).1
      = collected [PageOutcome.ok [sampleItem]] :=
  ⟨(claim_C2_fatal_abort_keeps_records [PageOutcome.ok [sampleItem]]
      [PageOutcome.ok [sampleItem]] [] []).1,
   (claim_C2_fatal_abort_keeps_records [PageOutcome.ok [sampleItem]]
      [PageOutcome.ok [sampleItem]] [] []).2.1 (by decide)⟩

/-- C4: a page whose readiness wait times out contributes zero records and
does not halt the run — in a 3-page run where only page 2 times out, the
result is exactly page 1's records followed by page 3's; in general a
timed-out page leaves the returned records of the rest of the run unchanged
(the page is visited once and never retried). -/
theorem claim_C4_timeout_zero_records (p1 p3 : List NewsItem) (rest : List PageOutcome) :
    (BaseCrawler.crawl [PageOutcome.ok p1, PageOutcome.timeout, PageOutcome.ok p3]).1
      = p1 ++ p3
    ∧ (crawlLoop (PageOutcome.timeout :: rest)).1 = (crawlLoop rest).1 := by
  constructor
  · simp [BaseCrawler.crawl, crawlLoop]
  · simp [crawlLoop]

/-- Counterexample for C5 as stated: in a run whose only page times out, no
pacing event occurs at all — the `continue` in the timeout handler jumps to
the next page before the pacing sleep is reached, so pacing does not run on
every page outcome. -/
theorem claim_C5_counterexample :
    (BaseCrawler.crawl [PageOutcome.timeout]).2
      = [CrawlEv.acquire, CrawlEv.nav, CrawlEv.quitDriver]
    ∧ CrawlEv.pace ∉ (BaseCrawler.crawl [PageOutcome.timeout]).2 := by
  exact ⟨rfl, by decide⟩

/-- Number of pages of a run that reach the pacing sleep: those whose
extraction succeeded or failed with a handled parse error. -/
def pacedPages : List PageOutcome → Nat
  | [] => 0
  | PageOutcome.ok _ :: rest => pacedPages rest + 1
  | PageOutcome.parseError :: rest => pacedPages rest + 1
  | _ :: rest => pacedPages rest

/-- C5 amended: the pacing suspension (a delay drawn uniformly at random from
the configured range) runs after every successfully extracted page and after
every extraction failure, but not after a page timeout — the timeout handler
proceeds directly to the next page — and on a fatal-free run the number of
pacing events equals the number of extracted or extraction-failed pages. -/
theorem claim_C5_pacing_amended (items : List NewsItem) (rest outs : List PageOutcome) :
    (crawlLoop (PageOutcome.ok items :: rest)).2
      = CrawlEv.nav :: CrawlEv.pace :: (crawlLoop rest).2
    ∧ (crawlLoop (PageOutcome.parseError :: rest)).2
      = CrawlEv.nav :: CrawlEv.pace :: (crawlLoop rest).2
    ∧ (crawlLoop (PageOutcome.timeout :: rest)).2 = CrawlEv.nav :: (crawlLoop rest).2
    ∧ (PageOutcome.fatal ∉ outs →
        ((crawlLoop outs).2.filter (fun e => e == CrawlEv.pace)).length = pacedPages outs) := by
  refine ⟨rfl, rfl, rfl, ?_⟩
  intro h
  induction outs with
  | nil => rfl
  | cons o rest2 ih =>
    have h2 : PageOutcome.fatal ∉ rest2 := fun hm => h (List.mem_cons_of_mem _ hm)
    cases o with
    | fatal => exact absurd (List.mem_cons_self _ _) h
    | timeout => simpa [crawlLoop, pacedPages, List.filter_cons] using ih h2
    | parseError => simpa [crawlLoop, pacedPages, List.filter_cons] using ih h2
    | ok its => simpa [crawlLoop, pacedPages, List.filter_cons] using ih h2

/-- Witness for C5's amended theorem: a concrete fatal-free run with one
extracted page, one timeout and one parse failure paces exactly twice. -/
theorem claim_C5_witness :
    ((crawlLoop [PageOutcome.ok [sampleItem], PageOutcome.timeout,
        PageOutcome.parseError]).2.filter (fun e => e == CrawlEv.pace)).length
      = pacedPages [PageOutcome.ok [sampleItem], PageOutcome.timeout,
        PageOutcome.parseError] :=
  (claim_C5_pacing_amended [] [] [PageOutcome.ok [sampleItem], PageOutcome.timeout,
    PageOutcome.parseError]).2.2.2 (by decide)

/-- The page loop itself emits only navigation and pacing events; driver
acquisition and release happen exactly once, outside the loop. -/
theorem crawlLoop_events_nav_pace (outs : List PageOutcome) :
    ∀ e ∈ (crawlLoop outs).2, e = CrawlEv.nav ∨ e = CrawlEv.pace := by
  induction outs with
  | nil => intro e he; cases he
  | cons o rest ih =>
    cases o with
    | fatal =>
      intro e he
      simp only [crawlLoop, List.mem_singleton] at he
      exact Or.inl he
    | timeout =>
      intro e he
      simp only [crawlLoop, List.mem_cons] at he
      rcases he with h | h
      · exact Or.inl h
      · exact ih e h
    | parseError =>
      intro e he
      simp only [crawlLoop, List.mem_cons] at he
      rcases he with h | h | h
      · exact Or.inl h
      · exact Or.inr h
      · exact ih e h
    | ok items =>
      intro e he
      simp only [crawlLoop, List.mem_cons] at he
      rcases he with h | h | h
      · exact Or.inl h
      · exact Or.inr h
      · exact ih e h

/-- C6: on every outcome of a per-site run — normal completion, fatal abort,
timeouts or extraction failures — the driver is acquired once at run start
and released exactly once, as the last action before the run returns; no exit
path of `BaseCrawler.crawl` leaves the driver live. -/
theorem claim_C6_driver_always_released (outs : List PageOutcome) :
    (BaseCrawler.crawl outs).2 = CrawlEv.acquire :: (crawlLoop outs).2 ++ [CrawlEv.quitDriver]
    ∧ CrawlEv.quitDriver ∉ (crawlLoop outs).2
    ∧ CrawlEv.acquire ∉ (crawlLoop outs).2
    ∧ (BaseCrawler.crawl outs).2.getLast? = some CrawlEv.quitDriver
    ∧ (BaseCrawler.crawl outs).2.head? = some CrawlEv.acquire := by
  refine ⟨rfl, ?_, ?_, ?_, rfl⟩
  · intro hmem
    rcases crawlLoop_events_nav_pace outs _ hmem with h | h <;> cases h
  · intro hmem
    rcases crawlLoop_events_nav_pace outs _ hmem with h | h <;> cases h
  · have hshape : (BaseCrawler.crawl outs).2
        = (CrawlEv.acquire :: (crawlLoop outs).2) ++ [CrawlEv.quitDriver] := by
      simp [BaseCrawler.crawl]
    rw [hshape, List.getLast?_concat]

/-- Every record produced by the Naver extractor has a non-empty title: a card
whose extracted title is empty is skipped without error. -/
theorem naver_parse_title_ne (now : String) (cards : List NaverCard) :
    ∀ item ∈ NaverCrawler.parse_page now cards, item.title ≠ "" := by
  induction cards with
  | nil => intro item h; cases h
  | cons card rest ih =>
    intro item h
    simp only [NaverCrawler.parse_page] at h
    split at h
    · exact ih item h
    · rename_i hne
      rcases List.mem_cons.mp h with h1 | h1
      · subst h1; simpa using hne
      · exact ih item h1

/-- Every record produced by the Daum extractor has a non-empty title. -/
theorem daum_parse_title_ne (now : String) (cards : List DaumCard) :
    ∀ item ∈ DaumCrawler.parse_page now cards, item.title ≠ "" := by
  induction cards with
  | nil => intro item h; cases h
  | cons card rest ih =>
    intro item h
    simp only [DaumCrawler.parse_page] at h
    split at h
    · exact ih item h
    · rename_i hne
      rcases List.mem_cons.mp h with h1 | h1
      · subst h1; simpa using hne
      · exact ih item h1

/-- Every record produced by the Hankyung extractor has a non-empty title. -/
theorem hankyung_parse_title_ne (now : String) (cards : List HankyungCard) :
    ∀ item ∈ HankyungCrawler.parse_page now cards, item.title ≠ "" := by
  induction cards with
  | nil => intro item h; cases h
  | cons card rest ih =>
    intro item h
    simp only [HankyungCrawler.parse_page] at h
    split at h
    · exact ih item h
    · rename_i hne
      rcases List.mem_cons.mp h with h1 | h1
      · subst h1; simpa using hne
      · exact ih item h1

/-- C7: no site extractor ever constructs a record with an empty title — a
candidate item whose extracted title is empty is skipped, yielding no record
and raising no error — and the aggregation step only retains records that
were in its input, so no empty-titled record can appear in any per-site or
aggregated result list. -/
theorem claim_C7_titles_nonempty :
    (∀ now cards item, item ∈ NaverCrawler.parse_page now cards → item.title ≠ "")
    ∧ (∀ now cards item, item ∈ DaumCrawler.parse_page now cards → item.title ≠ "")
    ∧ (∀ now cards item, item ∈ HankyungCrawler.parse_page now cards → item.title ≠ "")
    ∧ (∀ l item, item ∈ MultiSiteCrawler._deduplicate l → item ∈ l) :=
  ⟨fun now cards => naver_parse_title_ne now cards,
   fun now cards => daum_parse_title_ne now cards,
   fun now cards => hankyung_parse_title_ne now cards,
   fun l _ h => (dedupGo_sublist l []).subset h⟩

/-- Witness for C7: a concrete Naver card with title text yields a record
whose title is non-empty. -/
theorem claim_C7_witness :
    ((⟨"t", "알 수 없음", "", "", "naver", "n"⟩ : NewsItem)).title ≠ "" :=
  claim_C7_titles_nonempty.1 "n"
    [(⟨some "t", none, none, [], none⟩ : NaverCard)] _ (by decide)

/-- C8: every adapter's `build_url` is pure and deterministic — equal inputs
give identical URLs — the Naver page-to-offset arithmetic is exactly
`start = (page - 1) * 10 + 1` (so pages 1, 2, 3 put start values 1, 11, 21
into the generated URL), and Daum and Hankyung embed the raw page number
directly. -/
theorem claim_C8_build_url_pure :
    (∀ kw₁ kw₂ p₁ p₂, kw₁ = kw₂ → p₁ = p₂ →
        NaverCrawler.build_url kw₁ p₁ = NaverCrawler.build_url kw₂ p₂
        ∧ DaumCrawler.build_url kw₁ p₁ = DaumCrawler.build_url kw₂ p₂
        ∧ HankyungCrawler.build_url kw₁ p₁ = HankyungCrawler.build_url kw₂ p₂)
    ∧ (∀ kw p, NaverCrawler.build_url kw p
        = "https://search.naver.com/search.naver?where=news&query=" ++ quote_plus kw
          ++ "&start=" ++ toString ((p - 1) * 10 + 1) ++ "&sort=1")
    ∧ NaverCrawler.start_offset 1 = 1
    ∧ NaverCrawler.start_offset 2 = 11
    ∧ NaverCrawler.start_offset 3 = 21
    ∧ NaverCrawler.build_url "a" 1
      = "https://search.naver.com/search.naver?where=news&query=a&start=1&sort=1"
    ∧ NaverCrawler.build_url "a" 2
      = "https://search.naver.com/search.naver?where=news&query=a&start=11&sort=1"
    ∧ NaverCrawler.build_url "a" 3
      = "https://search.naver.com/search.naver?where=news&query=a&start=21&sort=1"
    ∧ (∀ kw p, DaumCrawler.build_url kw p
        = "https://search.daum.net/search?w=news&q=" ++ quote_plus kw ++ "&p="
          ++ toString p ++ "&spacing=0&sort=recency")
    ∧ (∀ kw p, HankyungCrawler.build_url kw p
        = "https://www.hankyung.com/search?search_str=" ++ quote_plus kw ++ "&page="
          ++ toString p ++ "&type=news&sort=date") := by
  refine ⟨?_, fun kw p => rfl, rfl, rfl, rfl, rfl, rfl, rfl, fun kw p => rfl, fun kw p => rfl⟩
  intro kw₁ kw₂ p₁ p₂ h1 h2
  subst h1
  subst h2
  exact ⟨rfl, rfl, rfl⟩

/-- Witness for C8: the determinism conjunct instantiated at a concrete
keyword and page. -/
theorem claim_C8_witness :
    NaverCrawler.build_url "a" 1 = NaverCrawler.build_url "a" 1
    ∧ DaumCrawler.build_url "a" 1 = DaumCrawler.build_url "a" 1
    ∧ HankyungCrawler.build_url "a" 1 = HankyungCrawler.build_url "a" 1 :=
  claim_C8_build_url_pure.1 "a" "a" 1 1 rfl rfl

/-- Daum card carrying a title but no publisher markup. -/
def daumNoPressCard : DaumCard :=
  ⟨some "기사", none, none, none, none, none, none, none, none, none, none, none, none⟩

/-- Hankyung card carrying a title but no author or reporter markup. -/
def hankyungNoPressCard : HankyungCard :=
  ⟨some "기사", none, none, none, none, none, none, none, none, none, none, none⟩

/-- Counterexample for C9 as stated: the press fallback sentinel is not one
value identical across all site adapters — on cards with no extractable
publisher, Daum produces the sentinel `알 수 없음` while Hankyung produces its
own site name `한국경제`, and the two differ. -/
theorem claim_C9_counterexample :
    (DaumCrawler.parse_page "n" [daumNoPressCard]).map NewsItem.press = ["알 수 없음"]
    ∧ (HankyungCrawler.parse_page "n" [hankyungNoPressCard]).map NewsItem.press = ["한국경제"]
    ∧ ("알 수 없음" : String) ≠ "한국경제" :=
  ⟨rfl, rfl, by decide⟩

/-- C9 amended: when no publisher name can be extracted, Naver and Daum
records fall back to the fixed sentinel `알 수 없음`, while Hankyung records
fall back to the site's own name `한국경제`. -/
theorem claim_C9_press_fallback (now : String) (c₁ : NaverCard) (c₂ : DaumCard)
    (c₃ : HankyungCard) :
    (BaseCrawler.safe_text c₁.info_press "" = "" → BaseCrawler.safe_text c₁.a_press "" = "" →
      ∀ item ∈ NaverCrawler.parse_page now [c₁], item.press = "알 수 없음")
    ∧ (BaseCrawler.safe_text c₂.name_cp "" = "" → BaseCrawler.safe_text c₂.txt_cp "" = "" →
        BaseCrawler.safe_text c₂.info_txt "" = "" →
        ∀ item ∈ DaumCrawler.parse_page now [c₂], item.press = "알 수 없음")
    ∧ (BaseCrawler.safe_text c₃.author "" = "" → BaseCrawler.safe_text c₃.reporter "" = "" →
        ∀ item ∈ HankyungCrawler.parse_page now [c₃], item.press = "한국경제") := by
  refine ⟨?_, ?_, ?_⟩
  · intro h1 h2 item hm
    simp only [NaverCrawler.parse_page] at hm
    split at hm
    · cases hm
    · rcases List.mem_cons.mp hm with he | he
      · subst he; simp [h1, h2, pyOr]
      · cases he
  · intro h1 h2 h3 item hm
    simp only [DaumCrawler.parse_page] at hm
    split at hm
    · cases hm
    · rcases List.mem_cons.mp hm with he | he
      · subst he; simp [h1, h2, h3, pyOr]
      · cases he
  · intro h1 h2 item hm
    simp only [HankyungCrawler.parse_page] at hm
    split at hm
    · cases hm
    · rcases List.mem_cons.mp hm with he | he
      · subst he; simp [h1, h2, pyOr]
      · cases he

/-- Witness for C9's amended theorem: the Hankyung card with no author or
reporter markup yields a record whose press is the site name. -/
theorem claim_C9_witness :
    ((⟨"기사", "한국경제", "", "", "hankyung", "n"⟩ : NewsItem)).press = "한국경제" :=
  (claim_C9_press_fallback "n" (⟨none, none, none, [], none⟩ : NaverCard) daumNoPressCard
    hankyungNoPressCard).2.2 rfl rfl _ (by decide)

/-- Every target key drawn from a request whose keys are all registered is
itself registered (covers the empty request, which selects the registry). -/
theorem target_keys_mem_registry (s : List String)
    (hall : ∀ k ∈ s, k ∈ MultiSiteCrawler.registry_keys) :
    ∀ k ∈ MultiSiteCrawler.target_keys (some s), k ∈ MultiSiteCrawler.registry_keys := by
  intro k hk
  simp only [MultiSiteCrawler.target_keys] at hk
  split at hk
  · exact hk
  · exact hall k hk

/-- C3: with no requested sites (absent or empty) every registered site —
naver, daum, hankyung — is selected; a request containing an unknown key
fails at construction, before any crawling, with a configuration error that
enumerates exactly the unknown requested key(s); a request of only known keys
succeeds. -/
theorem claim_C3_registry_validation :
    MultiSiteCrawler.init none = Except.ok ["naver", "daum", "hankyung"]
    ∧ MultiSiteCrawler.init (some []) = Except.ok ["naver", "daum", "hankyung"]
    ∧ (∀ s, (∀ k ∈ s, k ∈ MultiSiteCrawler.registry_keys) →
        MultiSiteCrawler.init (some s) = Except.ok (MultiSiteCrawler.target_keys (some s)))
    ∧ (∀ s k, k ∈ s → k ∉ MultiSiteCrawler.registry_keys →
        ∃ bad, MultiSiteCrawler.init (some s) = Except.error bad ∧ k ∈ bad
          ∧ ∀ j ∈ bad, j ∈ s ∧ j ∉ MultiSiteCrawler.registry_keys)
    ∧ (∀ sites bad outs, MultiSiteCrawler.init sites = Except.error bad →
        MultiSiteCrawler.run sites outs = Except.error bad) := by
  refine ⟨rfl, rfl, ?_, ?_, ?_⟩
  · intro s hall
    have hfilter : (MultiSiteCrawler.target_keys (some s)).filter
        (fun k => decide (k ∉ MultiSiteCrawler.registry_keys)) = [] := by
      rw [List.filter_eq_nil_iff]
      intro a ha
      have hmem : a ∈ MultiSiteCrawler.registry_keys :=
        target_keys_mem_registry s hall a ha
      simp [hmem]
    have hinv : MultiSiteCrawler.invalid_keys (some s) = [] := by
      unfold MultiSiteCrawler.invalid_keys
      rw [hfilter]
      rfl
    unfold MultiSiteCrawler.init
    rw [if_pos hinv]
  · intro s k hk hreg
    have hs : s ≠ [] := List.ne_nil_of_mem hk
    have htk : MultiSiteCrawler.target_keys (some s) = s := by
      simp [MultiSiteCrawler.target_keys, hs]
    have hkf : k ∈ (MultiSiteCrawler.target_keys (some s)).filter
        (fun x => decide (x ∉ MultiSiteCrawler.registry_keys)) := by
      rw [htk]
      exact List.mem_filter.mpr ⟨hk, decide_eq_true hreg⟩
    have hkinv : k ∈ MultiSiteCrawler.invalid_keys (some s) := by
      unfold MultiSiteCrawler.invalid_keys
      exact List.mem_dedup.mpr hkf
    have hne : MultiSiteCrawler.invalid_keys (some s) ≠ [] := List.ne_nil_of_mem hkinv
    refine ⟨MultiSiteCrawler.invalid_keys (some s), ?_, hkinv, ?_⟩
    · unfold MultiSiteCrawler.init
      rw [if_neg hne]
    · intro j hj
      unfold MultiSiteCrawler.invalid_keys at hj
      have h2 := List.mem_filter.mp (List.mem_dedup.mp hj)
      rw [htk] at h2
      exact ⟨h2.1, of_decide_eq_true h2.2⟩
  · intro sites bad outs h
    simp [MultiSiteCrawler.run, h]

/-- Witness for C3: a fully-registered concrete request resolves successfully,
and a request containing the unknown key `bbc` is rejected at construction
with an error that names it. -/
theorem claim_C3_witness :
    MultiSiteCrawler.init (some ["naver", "daum"])
      = Except.ok (MultiSiteCrawler.target_keys (some ["naver", "daum"])) :=
  claim_C3_registry_validation.2.2.1 ["naver", "daum"] (by decide)
